import Mathlib

/-!
Verification development for the Smart Summarizer transcript-acquisition
pipeline (`main.py`).  The Python code is shallowly embedded: pure string
manipulation becomes Lean functions on `String`/`List Char`; every network
effect (caption listing, `yt_dlp` extraction, HTTP subtitle fetches, JSON
parsing, the elapsed-time check) is supplied by an environment record whose
fields are the outcomes of the corresponding external calls, and the repo's
control flow is reproduced over those outcomes.
-/

/-! ### Model of the Python string primitives used by the source -/

/-- Python whitespace characters recognised by `str.strip` / `str.lstrip`. -/
def pyWs (c : Char) : Bool :=
  c == ' ' || c == '\t' || c == '\n' || c == '\r' || c == '\x0b' || c == '\x0c'

/-- `str.strip()` on a character list. -/
def pyStripChars (l : List Char) : List Char :=
  (((l.dropWhile pyWs).reverse).dropWhile pyWs).reverse

/-- `str.lstrip()` on a character list. -/
def pyLstripChars (l : List Char) : List Char :=
  l.dropWhile pyWs

/-- `str.strip()`. -/
def pyStrip (s : String) : String := String.mk (pyStripChars s.data)

/-- `str.lstrip()`. -/
def pyLstrip (s : String) : String := String.mk (pyLstripChars s.data)

/-- `str.lower()` (the source only lowercases ASCII error text and labels). -/
def pyLower (s : String) : String := String.mk (s.data.map Char.toLower)

/-- `pat` occurs at the very start of the list (`str.startswith`). -/
def leadEq : List Char → List Char → Bool
  | [], _ => true
  | _ :: _, [] => false
  | p :: ps, c :: cs => p == c && leadEq ps cs

/-- Substring occurrence, Python's `pat in s`. -/
def hasSubstrChars (pat : List Char) : List Char → Bool
  | [] => leadEq pat []
  | c :: rest => leadEq pat (c :: rest) || hasSubstrChars pat rest

/-- Python `needle in hay` on strings. -/
def pyIn (needle hay : String) : Bool := hasSubstrChars needle.data hay.data

/-- Python `s.startswith(pat)`. -/
def pyStartswith (s pat : String) : Bool := leadEq pat.data s.data

/-- A Python value of type `Optional[str]` is falsy iff it is `None` or `""`. -/
def pyFalsyOpt : Option String → Bool
  | none => true
  | some s => s == ""

/-- `str.splitlines` worker: `cur` holds the current line reversed. -/
def splitlinesGo (cur : List Char) : List Char → List (List Char)
  | [] => if cur.isEmpty then [] else [cur.reverse]
  | '\r' :: '\n' :: rest => cur.reverse :: splitlinesGo [] rest
  | '\r' :: rest => cur.reverse :: splitlinesGo [] rest
  | '\n' :: rest => cur.reverse :: splitlinesGo [] rest
  | c :: rest => splitlinesGo (c :: cur) rest

/-- `str.splitlines()` (over the line breaks the source's data can contain). -/
def pySplitlines (s : String) : List String :=
  (splitlinesGo [] s.data).map String.mk

/-- `" ".join(l)`. -/
def joinSpace : List String → String
  | [] => ""
  | [s] => s
  | s :: rest => s ++ " " ++ joinSpace rest

/-- Python slice `s[i:j]` (for `i ≤ j`, as used by the source). -/
def pySliceStr (s : String) (i j : Nat) : String :=
  String.mk ((s.data.drop i).take (j - i))

/-! ### Global configuration constants (`main.py` lines 30-34) -/

def REQUEST_TIMEOUT : Nat := 20
def YTDLP_SOCKET_TIMEOUT : Nat := 10
def HLS_SEGMENT_LIMIT : Nat := 30

/-! ### CaptionTrackFetcher (`try_transcript_api`, lines 93-137)

A caption track carries its language fields and, as its fetch handle, the
outcome the upstream would deliver for `t.fetch()`: either an exception
message or the list of timed segments (each a dict whose `"text"` entry may
be absent). -/

/-- One timed segment returned by `t.fetch()`; `text` is `seg.get("text")`. -/
structure FetchedSeg where
  text : Option String
deriving Repr, DecidableEq

/-- A caption track as listed by the transcript API, with its fetch outcome. -/
structure CaptionTrack where
  language : String
  language_code : String
  fetch : Except String (List FetchedSeg)
deriving Repr

/-- Environment of one `try_transcript_api` run: the outcome of
`list_transcripts` (exception message or the listing). -/
structure CapEnv where
  listing : Except String (List CaptionTrack)

/-- `english_variants` (line 105). -/
def english_variants : List String := ["english", "en", "en-us", "en-gb"]

/-- The per-track English test of lines 109-111:
`any(v in ln or v == lc for v in english_variants)`. -/
def isEnglishTrack (t : CaptionTrack) : Bool :=
  let ln := pyLower t.language
  let lc := pyLower t.language_code
  english_variants.any (fun v => pyIn v ln || v == lc)

/-- The partition loop of lines 107-114: preserves listing order within each
group. -/
def partition_tracks (ts : List CaptionTrack) : List CaptionTrack × List CaptionTrack :=
  ts.foldl
    (fun acc t =>
      if isEnglishTrack t then (acc.1 ++ [t], acc.2) else (acc.1, acc.2 ++ [t]))
    ([], [])

/-- `all_attempts = english_matches[:3] + others[:1]` (line 117). -/
def attempt_list (ts : List CaptionTrack) : List CaptionTrack :=
  (partition_tracks ts).1.take 3 ++ (partition_tracks ts).2.take 1

/-- `" ".join(seg.get("text", "") for seg in fetched if seg.get("text"))`. -/
def capJoin (l : List FetchedSeg) : String :=
  joinSpace (l.filterMap fun sg =>
    match sg.text with
    | some s => if s = "" then none else some s
    | none => none)

/-- The structural-absence marker of line 129. -/
def noElementMarker : String := "no element found"

/-- The candidate loop of lines 119-132.  Returns the fetched text (if any)
together with the number of candidates whose fetch was attempted. -/
def capLoop : List CaptionTrack → Option String × Nat
  | [] => (none, 0)
  | t :: rest =>
    match t.fetch with
    | Except.ok fetched =>
      if fetched ≠ [] then
        let text := capJoin fetched
        if pyStrip text ≠ "" then (some text, 1)
        else
          let r := capLoop rest
          (r.1, r.2 + 1)
      else
        let r := capLoop rest
        (r.1, r.2 + 1)
    | Except.error e =>
      if pyIn noElementMarker (pyLower e) then (none, 1)
      else
        let r := capLoop rest
        (r.1, r.2 + 1)

/-- `try_transcript_api` (lines 93-137): a listing failure is caught by the
outer handler and yields `None`; otherwise the candidate loop runs. -/
def try_transcript_api (env : CapEnv) : Option String × Nat :=
  match env.listing with
  | Except.error _ => (none, 0)
  | Except.ok ts => capLoop (attempt_list ts)

/-- A per-candidate outcome the loop merely logs before moving on: a fetch
exception without the structural-absence marker, or a fetch whose joined
text is empty. -/
def capSoftFail (t : CaptionTrack) : Bool :=
  match t.fetch with
  | Except.error e => !(pyIn noElementMarker (pyLower e))
  | Except.ok l => l.isEmpty || pyStrip (capJoin l) == ""

/-! ### MediaInfoExtractor (`_extract_with_stable_client`, lines 141-201)

A profile attempt's outcome is what `ydl.extract_info` did under that
client identity: an exception message, a falsy info (`None`), or a truthy
info dict. -/

/-- `TrackVal` is one value of the `subtitles` / `automatic_captions` dicts:
either a list of subtitle items or some non-list value (skipped by the
`isinstance(items, list)` guard). -/
structure SubItem where
  url : Option String
deriving Repr, DecidableEq

inductive TrackVal where
  | items (l : List SubItem)
  | nonlist
deriving Repr, DecidableEq

/-- The slice of the yt-dlp info dict the source reads (`info.get(...)`). -/
structure MediaInfo where
  title : Option String := none
  description : Option String := none
  uploader : Option String := none
  duration : Option Nat := none
  view_count : Option Nat := none
  upload_date : Option String := none
  subtitles : Option (List (String × TrackVal)) := none
  automatic_captions : Option (List (String × TrackVal)) := none
deriving Repr

/-- The permanent-condition test of line 191 (`error_str` is lowercased). -/
def permanentErr (e : String) : Bool :=
  pyIn "private video" (pyLower e) || pyIn "video unavailable" (pyLower e)

/-- The strategy loop of lines 175-201 over the successive `extract_info`
outcomes, threading `last_error`.  Returns the raised-or-returned result and
the number of profiles attempted. -/
def stableClientLoop : List (Except String (Option MediaInfo)) → Option String →
    Except String MediaInfo × Nat
  | [], lastErr =>
    (match lastErr with
     | some e => Except.error e
     | none => Except.error "All extraction strategies failed", 0)
  | Except.ok (some info) :: _, _ => (Except.ok info, 1)
  | Except.ok none :: rest, lastErr =>
    let r := stableClientLoop rest lastErr
    (r.1, r.2 + 1)
  | Except.error e :: rest, _ =>
    if permanentErr e then (Except.error e, 1)
    else
      let r := stableClientLoop rest (some e)
      (r.1, r.2 + 1)

/-- `_extract_with_stable_client`: the loop started with `last_error = None`. -/
def extract_with_stable_client
    (profileOutcomes : List (Except String (Option MediaInfo))) :
    Except String MediaInfo :=
  (stableClientLoop profileOutcomes none).1

/-- A profile outcome the loop swallows before trying the next profile:
a non-permanent exception or a falsy info. -/
def transientOutcome : Except String (Option MediaInfo) → Bool
  | Except.error e => !(permanentErr e)
  | Except.ok none => true
  | Except.ok (some _) => false

/-! ### SubtitleTextNormalizer (`_subtitle_to_plain`, lines 203-218) -/

/-- One entry of a timed-text JSON `"segs"` list (`sg.get("utf8", "")`). -/
structure JsonSeg where
  utf8 : String
deriving Repr, DecidableEq

/-- One entry of the `"events"` list (`ev.get("segs")`). -/
structure JsonEvent where
  segs : Option (List JsonSeg)
deriving Repr, DecidableEq

/-- Outcome of `json.loads`: an exception, a value that is not a dict with
an `"events"` key, or the timed-text shape the source walks. -/
inductive JsonRes where
  | fail
  | okOther
  | okEvents (evs : List JsonEvent)
deriving Repr

/-- The cue-line test `re.match(r"^(\d+|WEBVTT|-->)", ln)`: anchored at the
line start, so it holds iff the line begins with a digit, `WEBVTT` or `-->`. -/
def cueLine (ln : String) : Bool :=
  (match ln.data with
   | c :: _ => c.isDigit
   | [] => false) ||
  pyStartswith ln "WEBVTT" || pyStartswith ln "-->"

/-- `_subtitle_to_plain` with `json.loads` supplied as `jp`. -/
def subtitle_to_plain (jp : String → JsonRes) (s0 : String) : String :=
  let s := pyStrip s0
  if s = "" then ""
  else
    let structured :=
      match jp s with
      | JsonRes.fail => none
      | JsonRes.okOther => some []
      | JsonRes.okEvents evs =>
        some (evs.foldl
          (fun acc ev =>
            acc ++ ((ev.segs.getD []).filterMap fun sg =>
              let t := pyStrip sg.utf8
              if t ≠ "" then some t else none))
          [])
    match structured with
    | some segs =>
      if segs ≠ [] then joinSpace segs
      else
        joinSpace (((pySplitlines s).filter fun ln => ln ≠ "" && !cueLine ln).map pyStrip)
    | none =>
      joinSpace (((pySplitlines s).filter fun ln => ln ≠ "" && !cueLine ln).map pyStrip)

/-! ### SubtitlePlaylistResolver and `try_ytdlp_subtitles` (lines 220-324) -/

/-- An HTTP response as the source reads it (`status_code`, decoded text). -/
structure HttpResp where
  status : Nat
  text : String
deriving Repr, DecidableEq

/-- Environment of one `try_ytdlp_subtitles` run.  `profileOutcomes` drives
the inner `_extract_with_stable_client` call; `httpGet`/`segGet` give the
outcome of `requests.get` per URL; `urljoin` models
`urllib.parse.urljoin`; `jsonParse` models `json.loads`; `timeUp idx` is
the elapsed-time test at the head of candidate iteration `idx`. -/
structure YtdlpEnv where
  profileOutcomes : List (Except String (Option MediaInfo))
  httpGet : String → Except String HttpResp
  segGet : String → Except String HttpResp
  urljoin : String → String → String
  jsonParse : String → JsonRes
  timeUp : Nat → Bool

/-- `is_english_label`'s regex `^en([\-_][a-z]+)?$`. -/
def enRegex (l : List Char) : Bool :=
  match l with
  | 'e' :: 'n' :: rest =>
    match rest with
    | [] => true
    | c :: cs => (c == '-' || c == '_') && !cs.isEmpty && cs.all Char.isLower
  | _ => false

/-- `is_english_label` (lines 225-234). -/
def is_english_label (label : String) : Bool :=
  if label = "" then false
  else
    let lbl := pyLower label
    pyIn "english" lbl || enRegex lbl.data || pyStartswith lbl "en" || lbl == "eng"

/-- Python dict lookup on the association-list model (keys are unique). -/
def lookupKey (m : List (String × TrackVal)) (k : String) : Option TrackVal :=
  (m.find? fun kv => kv.1 == k).map Prod.snd

/-- `{**subs, **auto}`: keys of `subs` in order with `auto`'s value where the
key recurs, then the keys only in `auto`, in order. -/
def dictMerge (subs auto : List (String × TrackVal)) : List (String × TrackVal) :=
  (subs.map fun kv =>
    match lookupKey auto kv.1 with
    | some v => (kv.1, v)
    | none => kv) ++
  auto.filter fun kv => (lookupKey subs kv.1).isNone

/-- The split loop of lines 247-253: English vs non-English item pools. -/
def splitTracks (all_tracks : List (String × TrackVal)) :
    List SubItem × List SubItem :=
  all_tracks.foldl
    (fun acc kv =>
      match kv.2 with
      | TrackVal.items l =>
        if is_english_label kv.1 then (acc.1 ++ l, acc.2) else (acc.1, acc.2 ++ l)
      | TrackVal.nonlist => acc)
    ([], [])

/-- The candidate selection of lines 256-264. -/
def buildCandidates (all_tracks : List (String × TrackVal)) : List SubItem :=
  let groups := splitTracks all_tracks
  if groups.1 ≠ [] then groups.1.take 3
  else if groups.2 ≠ [] then groups.2.take 2
  else
    ((all_tracks.map Prod.snd).take 2).foldl
      (fun acc v =>
        match v with
        | TrackVal.items l => acc ++ l.take 1
        | TrackVal.nonlist => acc)
      []

/-- Per-segment body of the HLS loop (lines 297-305): `None` when the
segment is skipped, the normalized text when it is collected. -/
def hlsSegText (env : YtdlpEnv) (seg : String) : Option String :=
  match env.segGet seg with
  | Except.error _ => none
  | Except.ok rs =>
    if rs.status = 200 then
      let cleaned := subtitle_to_plain env.jsonParse rs.text
      if pyStrip cleaned ≠ "" then some cleaned else none
    else none

/-- The HLS playlist branch (lines 286-309): parses the playlist lines,
caps the fetched segments at `min(HLS_SEGMENT_LIMIT, 20)` and joins the
collected cleaned segments.  Also reports how many segment fetches were
issued. -/
def fetchHlsSegments (env : YtdlpEnv) (url text : String) : Option String × Nat :=
  let lines := pySplitlines text
  let segs := (lines.filter fun ln => ln ≠ "" && !pyStartswith ln "#").map
    (fun ln => env.urljoin url (pyStrip ln))
  let max_segs := min HLS_SEGMENT_LIMIT 20
  let taken := segs.take max_segs
  let collected := taken.filterMap (hlsSegText env)
  (if collected ≠ [] then some (joinSpace collected) else none, taken.length)

/-- The candidate loop of lines 266-318 (`idx` is the enumeration index). -/
def candLoop (env : YtdlpEnv) : List SubItem → Nat → Option String
  | [], _ => none
  | c :: rest, idx =>
    if env.timeUp idx then none
    else
      match c.url with
      | none => candLoop env rest (idx + 1)
      | some u =>
        if u = "" then candLoop env rest (idx + 1)
        else
          match env.httpGet u with
          | Except.error _ => candLoop env rest (idx + 1)
          | Except.ok r =>
            if r.status = 200 ∧ pyStrip r.text ≠ "" then
              if pyStartswith (pyLstrip r.text) "#EXTM3U" then
                match (fetchHlsSegments env u r.text).1 with
                | some t => some t
                | none => candLoop env rest (idx + 1)
              else
                let cleaned := subtitle_to_plain env.jsonParse r.text
                if pyStrip cleaned ≠ "" then some cleaned
                else candLoop env rest (idx + 1)
            else candLoop env rest (idx + 1)

/-- `try_ytdlp_subtitles` (lines 220-324): the whole body sits in a
`try`/`except` that turns any raised extraction error into `None`. -/
def try_ytdlp_subtitles (env : YtdlpEnv) : Option String :=
  match extract_with_stable_client env.profileOutcomes with
  | Except.error _ => none
  | Except.ok info =>
    let subs := info.subtitles.getD []
    let auto := info.automatic_captions.getD []
    let all_tracks := dictMerge subs auto
    candLoop env (buildCandidates all_tracks) 0

/-! ### TranscriptPipeline (`extract_transcript_from_youtube`, lines 328-411) -/

/-- Environment of one pipeline run.  `videoId` is the outcome of
`extract_video_id` (`none` = the 400 "Invalid YouTube URL." error);
`meta1`/`meta2` are the profile outcomes of the two further
`_extract_with_stable_client` calls made by the metadata stages. -/
structure PipeEnv where
  videoId : Option String
  cap : CapEnv
  yt : YtdlpEnv
  meta1 : List (Except String (Option MediaInfo))
  meta2 : List (Except String (Option MediaInfo))

/-- The two-field metadata text of line 341. -/
def metadataTwoField (title desc : String) : String :=
  "Title: " ++ title ++ "\n\nDescription:\n" ++ desc

/-- `f"{secs:02d}"` for the seconds field. -/
def twoDigit (n : Nat) : String :=
  if n < 10 then "0" ++ toString n else toString n

/-- One-decimal rendering of `num / den` used by the K/M view-count
formatting.  The decimal digit is computed by truncation in exact
arithmetic; the source formats a binary float with `:.1f`. -/
def oneDecimal (num den : Nat) : String :=
  toString (num / den) ++ "." ++ toString ((num * 10 / den) % 10)

/-- Duration formatting of lines 362-367. -/
def durationStr (duration : Nat) : String :=
  if duration ≠ 0 then toString (duration / 60) ++ ":" ++ twoDigit (duration % 60)
  else "Unknown"

/-- View-count formatting of lines 370-378. -/
def viewStr (view_count : Nat) : String :=
  if view_count ≠ 0 then
    if view_count ≥ 1000000 then oneDecimal view_count 1000000 ++ "M views"
    else if view_count ≥ 1000 then oneDecimal view_count 1000 ++ "K views"
    else toString view_count ++ " views"
  else "Unknown views"

/-- Upload-date formatting of lines 381-388. -/
def uploadDateStr (upload_date : String) : String :=
  if upload_date ≠ "" ∧ upload_date ≠ "Unknown" then
    pySliceStr upload_date 0 4 ++ "-" ++ pySliceStr upload_date 4 6 ++ "-" ++
      pySliceStr upload_date 6 8
  else upload_date

/-- The full-details fallback text of lines 390-400. -/
def fallbackText (info : MediaInfo) : String :=
  let title := info.title.getD "No title available"
  let desc := info.description.getD "No description available"
  let uploader := info.uploader.getD "Unknown"
  let duration := info.duration.getD 0
  let view_count := info.view_count.getD 0
  let upload_date := info.upload_date.getD "Unknown"
  "Video Title: " ++ title ++ "\n\nUploader: " ++ uploader ++ "\nDuration: " ++
    durationStr duration ++ "\nViews: " ++ viewStr view_count ++
    "\nUpload Date: " ++ uploadDateStr upload_date ++ "\n\nDescription:\n" ++
    desc ++
    "\n\nNote: Transcript/subtitles were not available for this video. This summary is based on the video metadata only."

/-- The detail of the final `HTTPException` (lines 408-411). -/
def pipelineFailDetail : String :=
  "Unable to extract transcript or metadata from this video. This may be because: 1) The video has no subtitles/captions, 2) The video is private or age-restricted, 3) YouTube is blocking automated access. Please try a different video."

/-- The last-attempt block of lines 350-411. -/
def finalMetadataStage (env : PipeEnv) (c : Nat) : Except String String × Nat :=
  match extract_with_stable_client env.meta2 with
  | Except.ok info =>
    let ft := fallbackText info
    if pyStrip ft ≠ "" then (Except.ok ft, c + 1)
    else (Except.error pipelineFailDetail, c + 1)
  | Except.error _ => (Except.error pipelineFailDetail, c + 1)

/-- The two-field metadata stage of lines 334-345 applied to the stage-1/2
transcript `t2` (the extractor-call count `c2` is threaded along). -/
def metadataStage (env : PipeEnv) (t2 : Option String) (c2 : Nat) :
    Option String × Nat :=
  if pyFalsyOpt t2 then
    match extract_with_stable_client env.meta1 with
    | Except.ok info =>
      let title := info.title.getD ""
      let desc := info.description.getD ""
      if title ≠ "" ∨ desc ≠ "" then
        (some (metadataTwoField title desc), c2 + 1)
      else (t2, c2 + 1)
    | Except.error _ => (some "", c2 + 1)
  else (t2, c2)

/-- The `transcript and transcript.strip()` success check of line 347,
falling through to the last-attempt block otherwise. -/
def pipelineCheck (env : PipeEnv) (t3 : Option String) (c3 : Nat) :
    Except String String × Nat :=
  match t3 with
  | some s =>
    if s ≠ "" ∧ pyStrip s ≠ "" then (Except.ok s, c3)
    else finalMetadataStage env c3
  | none => finalMetadataStage env c3

/-- Stages 3 onward of the pipeline. -/
def pipelineTail (env : PipeEnv) (t2 : Option String) (c2 : Nat) :
    Except String String × Nat :=
  let s3 := metadataStage env t2 c2
  pipelineCheck env s3.1 s3.2

/-- `extract_transcript_from_youtube` (lines 328-411).  The second component
counts the calls made to `_extract_with_stable_client` (the media-info
extractor): one inside `try_ytdlp_subtitles` and one per metadata stage. -/
def extract_transcript_from_youtube (env : PipeEnv) : Except String String × Nat :=
  match env.videoId with
  | none => (Except.error "Invalid YouTube URL.", 0)
  | some _ =>
    let t1 := (try_transcript_api env.cap).1
    if pyFalsyOpt t1 then pipelineTail env (try_ytdlp_subtitles env.yt) 1
    else pipelineTail env t1 0

/-! ### Summarization collaborator (`summarize_via_gemini`, lines 422-545) -/

/-- The mode normalization of lines 436-439:
`(summary_type or "short").strip().lower()`, then membership in the
accepted set with default `"short"`. -/
def normalize_summary_type (st : String) : String :=
  let s := pyLower (pyStrip (if st = "" then "short" else st))
  if s = "short" ∨ s = "bullet" ∨ s = "detailed" then s else "short"

/-- Which per-chunk prompt the branch chain of lines 468-545 selects. -/
inductive PromptKind where
  | bulletPrompt
  | comprehensivePrompt
  | detailedPrompt
  | shortPrompt
deriving Repr, DecidableEq

/-- The branch chain of lines 468-545 mapping the (already normalized)
summary type to its prompt and `max_output_tokens`. -/
def prompt_branch (st : String) : PromptKind × Nat :=
  if st = "bullet" then (PromptKind.bulletPrompt, 2500)
  else if st = "comprehensive" then (PromptKind.comprehensivePrompt, 3000)
  else if st = "detailed" then (PromptKind.detailedPrompt, 3000)
  else (PromptKind.shortPrompt, 1200)

/-- Chunking constants of lines 447-449. -/
def MAX_SAFE_CHUNK : Nat := 80000
def CHUNK_OVERLAP : Nat := 300
def MAX_CHUNKS : Nat := 2

/-- `step = MAX_SAFE_CHUNK - overlap` (line 455). -/
def chunkStep : Nat := MAX_SAFE_CHUNK - CHUNK_OVERLAP

/-- The chunking loop of lines 456-460: `for i in range(0, text_len, step)`
with a break once `max_chunks` chunks have been collected.  `fuel` bounds
the iteration count (any value covering `range(0, tlen, step)` is exact
because the loop body never runs with `i ≥ tlen`). -/
def chunkGo (text : List Char) (tlen : Nat) : Nat → Nat → List (List Char) → List (List Char)
  | 0, _, acc => acc.reverse
  | fuel + 1, i, acc =>
    if i < tlen then
      let chunk := (text.drop i).take MAX_SAFE_CHUNK
      let acc2 := chunk :: acc
      if MAX_CHUNKS ≤ acc2.length then acc2.reverse
      else chunkGo text tlen fuel (i + chunkStep) acc2
    else acc.reverse

/-- The chunk construction of lines 444-460 (`text = text.strip()` first). -/
def split_into_chunks (input : String) : List String :=
  let text := pyStripChars input.data
  let n := text.length
  if n ≤ MAX_SAFE_CHUNK then [String.mk text]
  else (chunkGo text n (n / chunkStep + 2) 0 []).map String.mk

/-! ### `/summarize/youtube` response flags (lines 823-837) -/

/-- The disclaimer substring tested on line 824. -/
def metadataNote : String := "Note: Transcript/subtitles were not available"

/-- `is_metadata_only = "Note: Transcript/subtitles were not available" in transcript`. -/
def is_metadata_only (transcript : String) : Bool := pyIn metadataNote transcript

/-- The `warning` response field of line 836. -/
def metadataWarning (transcript : String) : Option String :=
  if is_metadata_only transcript then
    some "This summary is based on video metadata only (no transcript available)"
  else none

/-! ### Concrete runs used by witnesses and counterexamples -/

/-- A listing with one English track whose fetch yields one segment. -/
def capEnvW : CapEnv :=
  ⟨Except.ok [⟨"English", "en", Except.ok [⟨some "hello"⟩]⟩]⟩

/-- A `try_ytdlp_subtitles` run whose first profile succeeds with one
English subtitle track served as a plain VTT-like body. -/
def ytEnvW : YtdlpEnv where
  profileOutcomes :=
    [Except.ok (some { subtitles := some [("en", TrackVal.items [⟨some "u"⟩])] }),
     Except.ok none, Except.ok none]
  httpGet := fun u =>
    if u = "u" then Except.ok ⟨200, "world"⟩ else Except.error "connection error"
  segGet := fun _ => Except.error "connection error"
  urljoin := fun _ l => l
  jsonParse := fun _ => JsonRes.fail
  timeUp := fun _ => false

/-- A media-info extractor whose three profiles all time out (transient). -/
def ytEnvTransient : YtdlpEnv where
  profileOutcomes := List.replicate 3 (Except.error "The read operation timed out")
  httpGet := fun _ => Except.error "connection error"
  segGet := fun _ => Except.error "connection error"
  urljoin := fun _ l => l
  jsonParse := fun _ => JsonRes.fail
  timeUp := fun _ => false

/-- The permanent-condition message raised by `yt_dlp` for a private video. -/
def privateVideoMsg : String :=
  "ERROR: [youtube] dQw4w9WgXcQ: Private video. Sign in if you have been granted access to this video"

/-- A media-info extractor whose first profile hits the private-video error. -/
def ytEnvPermanent : YtdlpEnv where
  profileOutcomes :=
    [Except.error privateVideoMsg, Except.error "second profile unused",
     Except.error "third profile unused"]
  httpGet := fun _ => Except.error "connection error"
  segGet := fun _ => Except.error "connection error"
  urljoin := fun _ l => l
  jsonParse := fun _ => JsonRes.fail
  timeUp := fun _ => false

/-- Pipeline run where the caption API already succeeds. -/
def pipeEnvW : PipeEnv :=
  ⟨some "abc12345678", capEnvW, ytEnvTransient, [], []⟩

/-- Pipeline run whose caption stage fails (captions disabled) and whose
yt-dlp subtitle stage succeeds. -/
def pipeEnvYt : PipeEnv :=
  ⟨some "abc12345678", ⟨Except.error "Subtitles are disabled for this video"⟩,
   ytEnvW, [], []⟩

/-- Pipeline run on a private video: every extraction raises the permanent
error. -/
def pipeEnvC2 : PipeEnv :=
  ⟨some "dQw4w9WgXcQ", ⟨Except.error "Subtitles are disabled for this video"⟩,
   ytEnvPermanent, List.replicate 3 (Except.error privateVideoMsg),
   List.replicate 3 (Except.error privateVideoMsg)⟩

/-- A merged track pool with one English and one Spanish subtitle track. -/
def c3pool : List (String × TrackVal) :=
  dictMerge [("en", TrackVal.items [⟨some "uA"⟩])]
    [("es", TrackVal.items [⟨some "uB"⟩])]

/-- A caption candidate whose fetch fails transiently (rate limit). -/
def softTrack : CaptionTrack :=
  ⟨"English", "en", Except.error "HTTP Error 429: Too Many Requests"⟩

/-- A caption candidate whose fetch raises the empty/malformed-payload
signal. -/
def structTrack : CaptionTrack :=
  ⟨"English", "en", Except.error "no element found: line 1, column 0"⟩

/-- A caption candidate that would succeed were it attempted. -/
def tailTrack : CaptionTrack :=
  ⟨"English", "en", Except.ok [⟨some "tail text"⟩]⟩

/-- Pipeline run whose caption stage aborts on the structural-absence
signal, with everything downstream failing transiently. -/
def pipeEnvC5 : PipeEnv :=
  ⟨some "abc12345678", ⟨Except.ok [structTrack]⟩, ytEnvTransient,
   List.replicate 3 (Except.error "The read operation timed out"),
   List.replicate 3 (Except.error "The read operation timed out")⟩

/-- A listing of five preferred-language and three other-language tracks. -/
def ts8 : List CaptionTrack :=
  [⟨"English", "en", Except.error "e1"⟩, ⟨"English", "en", Except.error "e2"⟩,
   ⟨"English (auto-generated)", "en", Except.error "e3"⟩,
   ⟨"English (United Kingdom)", "en-GB", Except.error "e4"⟩,
   ⟨"English", "en-US", Except.error "e5"⟩,
   ⟨"Spanish", "es", Except.error "s1"⟩, ⟨"Italiano", "it", Except.error "s2"⟩,
   ⟨"German", "de", Except.error "s3"⟩]

/-- An environment for the playlist resolver whose segment fetches all fail. -/
def hlsDummyEnv : YtdlpEnv where
  profileOutcomes := []
  httpGet := fun _ => Except.error "connection error"
  segGet := fun _ => Except.error "connection error"
  urljoin := fun _ l => l
  jsonParse := fun _ => JsonRes.fail
  timeUp := fun _ => false

/-- An HLS playlist listing 25 segments. -/
def hlsPlaylist25 : String :=
  "#EXTM3U\ns01\ns02\ns03\ns04\ns05\ns06\ns07\ns08\ns09\ns10\ns11\ns12\ns13\ns14\ns15\ns16\ns17\ns18\ns19\ns20\ns21\ns22\ns23\ns24\ns25"

/-- A description that itself contains the metadata-only disclaimer
substring. -/
def c10desc : String :=
  "Note: Transcript/subtitles were not available when this talk was recorded."

/-- Pipeline run answered by the two-field metadata fallback, whose
description happens to contain the disclaimer substring. -/
def pipeEnvC10 : PipeEnv :=
  ⟨some "abc12345678", ⟨Except.error "Subtitles are disabled for this video"⟩,
   ytEnvTransient,
   [Except.ok (some { title := some "T", description := some c10desc }),
    Except.ok none, Except.ok none],
   List.replicate 3 (Except.error "The read operation timed out")⟩

/-- The 2.2-&times;-chunk-size input of the chunker scenario. -/
def chunkWitnessInput : String := String.mk (List.replicate 176000 'a')

/-! ### Helper lemmas on the string model -/

lemma strData_append (a b : String) : (a ++ b).data = a.data ++ b.data := by
  cases a; cases b; rfl

lemma dropWhile_nil_iff (p : Char → Bool) (l : List Char) :
    List.dropWhile p l = [] ↔ ∀ c ∈ l, p c = true := by
  induction l with
  | nil => simp
  | cons c t ih =>
    by_cases hp : p c = true
    · simp [List.dropWhile_cons, hp, ih]
    · simp [List.dropWhile_cons, hp]

lemma mem_dropWhile_imp (p : Char → Bool) (l : List Char) (c : Char)
    (h : c ∈ List.dropWhile p l) : c ∈ l := by
  induction l with
  | nil => simp at h
  | cons a t ih =>
    by_cases hp : p a = true
    · rw [List.dropWhile_cons, if_pos hp] at h
      exact List.mem_cons_of_mem a (ih h)
    · rw [List.dropWhile_cons, if_neg hp] at h
      exact h

lemma stripChars_nil_iff (l : List Char) :
    pyStripChars l = [] ↔ ∀ c ∈ l, pyWs c = true := by
  unfold pyStripChars
  rw [List.reverse_eq_nil_iff, dropWhile_nil_iff]
  constructor
  · intro h c hc
    have hsplit := List.takeWhile_append_dropWhile (p := pyWs) (l := l)
    rw [← hsplit] at hc
    rcases List.mem_append.mp hc with h1 | h2
    · exact List.mem_takeWhile_imp h1
    · exact h c (List.mem_reverse.mpr h2)
  · intro h c hc
    exact h c (mem_dropWhile_imp _ _ _ (List.mem_reverse.mp hc))

lemma pyStrip_empty_iff (s : String) :
    pyStrip s = "" ↔ ∀ c ∈ s.data, pyWs c = true := by
  rw [pyStrip, String.ext_iff]
  exact stripChars_nil_iff _

lemma pyStrip_ne_of_mem (s : String) (c : Char) (hc : c ∈ s.data)
    (hw : pyWs c = false) : pyStrip s ≠ "" := by
  intro h
  have := (pyStrip_empty_iff s).mp h c hc
  simp [hw] at this

lemma joinSpace_mem_data (l : List String) (x : String) (hx : x ∈ l)
    (c : Char) (hc : c ∈ x.data) : c ∈ (joinSpace l).data := by
  induction l with
  | nil => simp at hx
  | cons a rest ih =>
    cases rest with
    | nil =>
      simp at hx
      subst hx
      simpa [joinSpace] using hc
    | cons b t =>
      rcases List.mem_cons.mp hx with h | h
      · subst h
        rw [show joinSpace (x :: b :: t) = x ++ " " ++ joinSpace (b :: t) from rfl,
            strData_append, strData_append]
        exact List.mem_append.mpr (Or.inl (List.mem_append.mpr (Or.inl hc)))
      · rw [show joinSpace (a :: b :: t) = a ++ " " ++ joinSpace (b :: t) from rfl,
            strData_append]
        exact List.mem_append.mpr (Or.inr (ih h))

lemma joinSpace_strip_ne (l : List String) (x : String) (hx : x ∈ l)
    (h : pyStrip x ≠ "") : pyStrip (joinSpace l) ≠ "" := by
  have hex : ¬ ∀ c ∈ x.data, pyWs c = true :=
    fun hall => h ((pyStrip_empty_iff x).mpr hall)
  push_neg at hex
  obtain ⟨c, hc, hw⟩ := hex
  exact pyStrip_ne_of_mem _ c (joinSpace_mem_data l x hx c hc)
    (by simpa using hw)

/-! ### Non-empty-success lemmas for the two fetch stages -/

lemma hlsSegText_strip_ne (env : YtdlpEnv) (seg : String) (c : String)
    (h : hlsSegText env seg = some c) : pyStrip c ≠ "" := by
  unfold hlsSegText at h
  cases hg : env.segGet seg with
  | error e => rw [hg] at h; simp at h
  | ok rs =>
    rw [hg] at h
    dsimp only at h
    by_cases hst : rs.status = 200
    · rw [if_pos hst] at h
      by_cases hcl : pyStrip (subtitle_to_plain env.jsonParse rs.text) ≠ ""
      · rw [if_pos hcl] at h
        simp only [Option.some.injEq] at h
        rw [← h]
        exact hcl
      · rw [if_neg hcl] at h
        simp at h
    · rw [if_neg hst] at h
      simp at h

lemma fetchHls_strip_ne (env : YtdlpEnv) (url text t : String)
    (h : (fetchHlsSegments env url text).1 = some t) : pyStrip t ≠ "" := by
  simp only [fetchHlsSegments] at h
  set collected :=
    (((pySplitlines text).filter fun ln => ln ≠ "" && !pyStartswith ln "#").map
        (fun ln => env.urljoin url (pyStrip ln))
      |>.take (min HLS_SEGMENT_LIMIT 20)).filterMap (hlsSegText env) with hcol
  by_cases hc : collected ≠ []
  · rw [if_pos hc] at h
    simp only [Option.some.injEq] at h
    obtain ⟨x, hx⟩ := List.exists_mem_of_ne_nil collected hc
    obtain ⟨seg, _, hseg⟩ := List.mem_filterMap.mp hx
    exact h ▸ joinSpace_strip_ne collected x hx (hlsSegText_strip_ne env seg x hseg)
  · rw [if_neg hc] at h
    simp at h

lemma candLoop_strip_ne (env : YtdlpEnv) :
    ∀ (cands : List SubItem) (idx : Nat) (s : String),
      candLoop env cands idx = some s → pyStrip s ≠ "" := by
  intro cands
  induction cands with
  | nil => intro idx s h; simp [candLoop] at h
  | cons c rest ih =>
    intro idx s h
    rw [candLoop] at h
    by_cases htime : env.timeUp idx = true
    · rw [if_pos htime] at h; simp at h
    · rw [if_neg htime] at h
      cases hu : c.url with
      | none => rw [hu] at h; exact ih _ _ h
      | some u =>
        rw [hu] at h
        dsimp only at h
        by_cases hue : u = ""
        · rw [if_pos hue] at h; exact ih _ _ h
        · rw [if_neg hue] at h
          cases hget : env.httpGet u with
          | error e => rw [hget] at h; exact ih _ _ h
          | ok r =>
            rw [hget] at h
            dsimp only at h
            by_cases hok : r.status = 200 ∧ pyStrip r.text ≠ ""
            · rw [if_pos hok] at h
              by_cases hm3u : pyStartswith (pyLstrip r.text) "#EXTM3U" = true
              · rw [if_pos hm3u] at h
                cases hhls : (fetchHlsSegments env u r.text).1 with
                | none => rw [hhls] at h; exact ih _ _ h
                | some t =>
                  rw [hhls] at h
                  simp only [Option.some.injEq] at h
                  exact h ▸ fetchHls_strip_ne env u r.text t hhls
              · rw [if_neg hm3u] at h
                by_cases hcl : pyStrip (subtitle_to_plain env.jsonParse r.text) ≠ ""
                · rw [if_pos hcl] at h
                  simp only [Option.some.injEq] at h
                  rw [← h]
                  exact hcl
                · rw [if_neg hcl] at h
                  exact ih _ _ h
            · rw [if_neg hok] at h
              exact ih _ _ h

lemma capLoop_strip_ne :
    ∀ (l : List CaptionTrack) (s : String),
      (capLoop l).1 = some s → pyStrip s ≠ "" := by
  intro l
  induction l with
  | nil => intro s h; simp [capLoop] at h
  | cons t rest ih =>
    intro s h
    rw [capLoop] at h
    cases hf : t.fetch with
    | ok fetched =>
      rw [hf] at h
      dsimp only at h
      by_cases hne : fetched ≠ []
      · rw [if_pos hne] at h
        by_cases hjs : pyStrip (capJoin fetched) ≠ ""
        · rw [if_pos hjs] at h
          simp only [Option.some.injEq] at h
          rw [← h]
          exact hjs
        · rw [if_neg hjs] at h
          exact ih _ h
      · rw [if_neg hne] at h
        exact ih _ h
    | error e =>
      rw [hf] at h
      dsimp only at h
      by_cases hm : pyIn noElementMarker (pyLower e) = true
      · rw [if_pos hm] at h; simp at h
      · rw [if_neg hm] at h
        exact ih _ h

/-! ### Control-flow lemmas for the caption loop, the profile loop and the
pipeline -/

lemma capLoop_soft_cons (u : CaptionTrack) (rest : List CaptionTrack)
    (hu : capSoftFail u = true) :
    capLoop (u :: rest) = ((capLoop rest).1, (capLoop rest).2 + 1) := by
  rw [capLoop]
  unfold capSoftFail at hu
  cases hf : u.fetch with
  | ok l =>
    rw [hf] at hu
    dsimp only
    by_cases hne : l ≠ []
    · rw [if_pos hne]
      have h2 : pyStrip (capJoin l) = "" := by
        rcases Bool.or_eq_true_iff.mp hu with h | h
        · exact absurd (List.isEmpty_iff.mp h) hne
        · exact eq_of_beq h
      rw [if_neg (by simp [h2])]
    · rw [if_neg hne]
  | error e =>
    rw [hf] at hu
    dsimp only at hu
    dsimp only
    have hm : pyIn noElementMarker (pyLower e) = false := by simpa using hu
    rw [if_neg (by simp [hm])]

lemma capLoop_abort (pre : List CaptionTrack) (t : CaptionTrack)
    (post : List CaptionTrack) (e : String)
    (hsoft : ∀ u ∈ pre, capSoftFail u = true)
    (ht : t.fetch = Except.error e)
    (hm : pyIn noElementMarker (pyLower e) = true) :
    capLoop (pre ++ t :: post) = (none, pre.length + 1) := by
  induction pre with
  | nil =>
    rw [List.nil_append, capLoop, ht]
    dsimp only
    rw [if_pos hm]
    simp
  | cons u pre ih =>
    rw [List.cons_append,
        capLoop_soft_cons u _ (hsoft u (List.mem_cons_self u _)),
        ih (fun x hx => hsoft x (List.mem_cons_of_mem u hx))]
    simp

lemma stableClientLoop_perm (e : String)
    (post : List (Except String (Option MediaInfo)))
    (hp : permanentErr e = true) :
    ∀ (pre : List (Except String (Option MediaInfo))),
      (∀ o ∈ pre, transientOutcome o = true) →
      ∀ lastErr, stableClientLoop (pre ++ Except.error e :: post) lastErr =
        (Except.error e, pre.length + 1) := by
  intro pre
  induction pre with
  | nil =>
    intro _ lastErr
    rw [List.nil_append, stableClientLoop]
    rw [if_pos hp]
    simp
  | cons o pre ih =>
    intro hsoft lastErr
    have ho : transientOutcome o = true := hsoft o (List.mem_cons_self o _)
    have htail : ∀ x ∈ pre, transientOutcome x = true :=
      fun x hx => hsoft x (List.mem_cons_of_mem o hx)
    cases o with
    | ok oi =>
      cases oi with
      | some i => simp [transientOutcome] at ho
      | none =>
        rw [List.cons_append, stableClientLoop, ih htail lastErr]
        simp
    | error e2 =>
      have hperm : permanentErr e2 = false := by
        simpa [transientOutcome] using ho
      rw [List.cons_append, stableClientLoop]
      rw [if_neg (by simp [hperm]), ih htail (some e2)]
      simp

lemma ytdlp_none_of_error (env : YtdlpEnv) (e : String)
    (h : extract_with_stable_client env.profileOutcomes = Except.error e) :
    try_ytdlp_subtitles env = none := by
  unfold try_ytdlp_subtitles
  rw [h]

lemma finalMeta_count (env : PipeEnv) (c : Nat) :
    (finalMetadataStage env c).2 = c + 1 := by
  unfold finalMetadataStage
  cases extract_with_stable_client env.meta2 with
  | ok info =>
    dsimp only
    split <;> rfl
  | error e => rfl

lemma pipelineCheck_count (env : PipeEnv) (t3 : Option String) (c3 : Nat) :
    c3 ≤ (pipelineCheck env t3 c3).2 := by
  cases t3 with
  | none => simp [pipelineCheck, finalMeta_count]
  | some s =>
    show c3 ≤ (if s ≠ "" ∧ pyStrip s ≠ "" then (Except.ok s, c3)
      else finalMetadataStage env c3).2
    split
    · simp
    · simp [finalMeta_count]

lemma metadataStage_count (env : PipeEnv) (t2 : Option String) (c2 : Nat) :
    c2 ≤ (metadataStage env t2 c2).2 ∧
      (pyFalsyOpt t2 = true → c2 + 1 ≤ (metadataStage env t2 c2).2) := by
  unfold metadataStage
  by_cases hf : pyFalsyOpt t2 = true
  · rw [if_pos hf]
    cases hm : extract_with_stable_client env.meta1 with
    | ok info =>
      dsimp only
      split
      · exact ⟨by omega, fun _ => by omega⟩
      · exact ⟨by omega, fun _ => by omega⟩
    | error e =>
      dsimp only
      exact ⟨by omega, fun _ => by omega⟩
  · rw [if_neg hf]
    exact ⟨by omega, fun hc => absurd hc hf⟩

lemma pipelineTail_count (env : PipeEnv) (t2 : Option String) (c2 : Nat) :
    c2 ≤ (pipelineTail env t2 c2).2 ∧
      (pyFalsyOpt t2 = true → c2 + 1 ≤ (pipelineTail env t2 c2).2) := by
  unfold pipelineTail
  dsimp only
  have h1 := metadataStage_count env t2 c2
  have h2 := pipelineCheck_count env (metadataStage env t2 c2).1
    (metadataStage env t2 c2).2
  exact ⟨by omega, fun hc => by have := h1.2 hc; omega⟩

lemma pipeline_counts (env : PipeEnv) (v : String)
    (hv : env.videoId = some v)
    (hcap : pyFalsyOpt (try_transcript_api env.cap).1 = true) :
    1 ≤ (extract_transcript_from_youtube env).2 ∧
      (try_ytdlp_subtitles env.yt = none →
        2 ≤ (extract_transcript_from_youtube env).2) := by
  unfold extract_transcript_from_youtube
  rw [hv]
  dsimp only
  rw [if_pos hcap]
  constructor
  · exact (pipelineTail_count env (try_ytdlp_subtitles env.yt) 1).1
  · intro hyt
    rw [hyt]
    exact (pipelineTail_count env none 1).2 rfl

lemma pipelineTail_success (env : PipeEnv) (s : String) (c : Nat)
    (hne : pyStrip s ≠ "") : pipelineTail env (some s) c = (Except.ok s, c) := by
  have hs : s ≠ "" := by
    intro h0
    apply hne
    rw [h0]
    rfl
  unfold pipelineTail metadataStage
  rw [if_neg (by simp [pyFalsyOpt, hs])]
  dsimp only
  unfold pipelineCheck
  dsimp only
  rw [if_pos ⟨hs, hne⟩]

lemma ytdlp_some_strip_ne (env : YtdlpEnv) (s : String)
    (h : try_ytdlp_subtitles env = some s) : pyStrip s ≠ "" := by
  unfold try_ytdlp_subtitles at h
  cases he : extract_with_stable_client env.profileOutcomes with
  | error e => rw [he] at h; simp at h
  | ok info =>
    rw [he] at h
    dsimp only at h
    exact candLoop_strip_ne env _ _ s h

/-! ### Occurrence lemmas for the substring model -/

lemma mem_drop_imp {α : Type} : ∀ (n : Nat) (l : List α) (c : α),
    c ∈ l.drop n → c ∈ l := by
  intro n
  induction n with
  | zero => intro l c h; rw [List.drop_zero] at h; exact h
  | succ n ih =>
    intro l c h
    cases l with
    | nil => simp at h
    | cons a t =>
      rw [List.drop_succ_cons] at h
      exact List.mem_cons_of_mem a (ih t c h)

lemma leadEq_iff_take (pat : List Char) :
    ∀ l : List Char, leadEq pat l = true ↔ l.take pat.length = pat := by
  induction pat with
  | nil => intro l; simp [leadEq]
  | cons p ps ih =>
    intro l
    cases l with
    | nil => simp [leadEq]
    | cons c cs =>
      simp only [leadEq, Bool.and_eq_true, beq_iff_eq, ih, List.length_cons,
        List.take_succ_cons, List.cons.injEq]
      constructor
      · rintro ⟨hh, ht⟩; exact ⟨hh.symm, ht⟩
      · rintro ⟨hh, ht⟩; exact ⟨hh.symm, ht⟩

lemma hasSubstr_iff (pat : List Char) :
    ∀ hay : List Char, hasSubstrChars pat hay = true ↔
      ∃ i, leadEq pat (hay.drop i) = true := by
  intro hay
  induction hay with
  | nil =>
    simp only [hasSubstrChars, List.drop_nil]
    exact ⟨fun h => ⟨0, h⟩, fun ⟨_, h⟩ => h⟩
  | cons c rest ih =>
    rw [hasSubstrChars]
    simp only [Bool.or_eq_true, ih]
    constructor
    · rintro (h | ⟨i, hi⟩)
      · exact ⟨0, by simpa using h⟩
      · exact ⟨i + 1, by simpa using hi⟩
    · rintro ⟨i, hi⟩
      cases i with
      | zero => exact Or.inl (by simpa using hi)
      | succ j => exact Or.inr ⟨j, by simpa using hi⟩

lemma hasSubstr_head_skip (pat a b : List Char) (p : Char)
    (hp : pat.head? = some p)
    (ha : ∀ c ∈ a, c ≠ p)
    (h : hasSubstrChars pat (a ++ b) = true) :
    hasSubstrChars pat b = true := by
  obtain ⟨ph, pt, hpat⟩ : ∃ ph pt, pat = ph :: pt := by
    cases pat with
    | nil => simp at hp
    | cons q qt => exact ⟨q, qt, rfl⟩
  have hph : ph = p := by rw [hpat] at hp; simpa using hp
  obtain ⟨i, hi⟩ := (hasSubstr_iff pat _).mp h
  by_cases hia : i < a.length
  · exfalso
    have hdrop : (a ++ b).drop i = a.drop i ++ b := by
      rw [List.drop_append_eq_append_drop, Nat.sub_eq_zero_of_le (le_of_lt hia),
        List.drop_zero]
    rw [hdrop] at hi
    cases hd : a.drop i with
    | nil =>
      have := List.drop_eq_nil_iff.mp hd
      omega
    | cons c tail =>
      rw [hd, hpat] at hi
      have hc : ph = c := by
        simp only [List.cons_append, leadEq, Bool.and_eq_true, beq_iff_eq] at hi
        exact hi.1
      have : c ∈ a := mem_drop_imp i a c (hd ▸ List.mem_cons_self c tail)
      exact ha c this (by rw [← hc, hph])
  · push_neg at hia
    have hdrop : (a ++ b).drop i = b.drop (i - a.length) := by
      rw [List.drop_append_eq_append_drop, List.drop_eq_nil_of_le hia,
        List.nil_append]
    rw [hdrop] at hi
    exact (hasSubstr_iff pat b).mpr ⟨i - a.length, hi⟩

lemma hasSubstr_split (pat a b : List Char) (x : Char)
    (hx : x ∉ pat)
    (h : hasSubstrChars pat (a ++ x :: b) = true) :
    hasSubstrChars pat a = true ∨ hasSubstrChars pat b = true := by
  obtain ⟨i, hi⟩ := (hasSubstr_iff pat _).mp h
  rw [leadEq_iff_take] at hi
  by_cases hia : i ≤ a.length
  · have hdrop : (a ++ x :: b).drop i = a.drop i ++ x :: b := by
      rw [List.drop_append_eq_append_drop, Nat.sub_eq_zero_of_le hia,
        List.drop_zero]
    rw [hdrop] at hi
    by_cases hlen : pat.length ≤ (a.drop i).length
    · rw [List.take_append_of_le_length hlen] at hi
      exact Or.inl ((hasSubstr_iff pat a).mpr
        ⟨i, (leadEq_iff_take pat _).mpr hi⟩)
    · exfalso
      apply hx
      push_neg at hlen
      rw [List.take_append_eq_append_take,
        List.take_of_length_le (le_of_lt hlen)] at hi
      have hpos : pat.length - (a.drop i).length ≠ 0 := by omega
      obtain ⟨k, hk⟩ := Nat.exists_eq_succ_of_ne_zero hpos
      rw [hk, List.take_succ_cons] at hi
      rw [← hi]
      exact List.mem_append.mpr (Or.inr (List.mem_cons_self x _))
  · push_neg at hia
    have hdrop : (a ++ x :: b).drop i = b.drop (i - a.length - 1) := by
      rw [List.drop_append_eq_append_drop, List.drop_eq_nil_of_le (le_of_lt hia),
        List.nil_append]
      obtain ⟨k, hk⟩ : ∃ k, i - a.length = k + 1 :=
        Nat.exists_eq_succ_of_ne_zero (by omega)
      rw [hk, List.drop_succ_cons]
      simp
    rw [hdrop] at hi
    exact Or.inr ((hasSubstr_iff pat b).mpr
      ⟨i - a.length - 1, (leadEq_iff_take pat _).mpr hi⟩)

/-! ### Chunker lemmas -/

lemma chunkGo_succ (text : List Char) (tlen fuel i : Nat)
    (acc : List (List Char)) :
    chunkGo text tlen (fuel + 1) i acc =
      if i < tlen then
        let chunk := (text.drop i).take MAX_SAFE_CHUNK
        let acc2 := chunk :: acc
        if MAX_CHUNKS ≤ acc2.length then acc2.reverse
        else chunkGo text tlen fuel (i + chunkStep) acc2
      else acc.reverse := rfl

lemma dropWhile_replicate (p : Char → Bool) (c : Char) (h : p c = false) :
    ∀ n, List.dropWhile p (List.replicate n c) = List.replicate n c := by
  intro n
  induction n with
  | zero => rfl
  | succ n ih =>
    rw [List.replicate_succ, List.dropWhile_cons, if_neg (by simp [h])]

lemma pyStripChars_replicate (n : Nat) (c : Char) (h : pyWs c = false) :
    pyStripChars (List.replicate n c) = List.replicate n c := by
  unfold pyStripChars
  rw [dropWhile_replicate _ _ h, List.reverse_replicate,
    dropWhile_replicate _ _ h, List.reverse_replicate]

/-! ### Claim theorems -/

/-- C1: the transcript pipeline tries its stages in strict fallback order
and terminates successfully at the first stage yielding non-empty text:
when `try_transcript_api` returns non-empty text the run ends with that
text and `_extract_with_stable_client` (the media-info extractor) is
invoked zero times; when it is empty and `try_ytdlp_subtitles` yields text
the run ends there with exactly the one extractor call that stage makes. -/
theorem caption_stage_short_circuits :
    (∀ (env : PipeEnv) (v s : String),
        env.videoId = some v →
        (try_transcript_api env.cap).1 = some s →
        pyStrip s ≠ "" →
        extract_transcript_from_youtube env = (Except.ok s, 0)) ∧
    (∀ (env : PipeEnv) (v s : String),
        env.videoId = some v →
        pyFalsyOpt (try_transcript_api env.cap).1 = true →
        try_ytdlp_subtitles env.yt = some s →
        extract_transcript_from_youtube env = (Except.ok s, 1)) := by
  constructor
  · intro env v s hv hcap hne
    have hs : s ≠ "" := by
      intro h0
      apply hne
      rw [h0]
      rfl
    unfold extract_transcript_from_youtube
    rw [hv]
    dsimp only
    rw [hcap, if_neg (by simp [pyFalsyOpt, hs])]
    exact pipelineTail_success env s 0 hne
  · intro env v s hv hcap hyt
    unfold extract_transcript_from_youtube
    rw [hv]
    dsimp only
    rw [if_pos hcap, hyt]
    exact pipelineTail_success env s 1 (ytdlp_some_strip_ne env.yt s hyt)

/-- C1 witness: a run whose caption stage fetches `"hello"` (no extractor
call), and a run whose caption stage fails and whose subtitle stage fetches
`"world"` (exactly one extractor call, no metadata stage). -/
theorem caption_stage_short_circuits_witness :
    extract_transcript_from_youtube pipeEnvW = (Except.ok "hello", 0) ∧
    extract_transcript_from_youtube pipeEnvYt = (Except.ok "world", 1) :=
  ⟨caption_stage_short_circuits.1 pipeEnvW "abc12345678" "hello" rfl
      (by decide) (by decide),
   caption_stage_short_circuits.2 pipeEnvYt "abc12345678" "world" rfl
      (by decide) (by decide)⟩

/-- C2 counterexample: on a private video every stage swallows the permanent
error — the extractor is invoked by all three fallback stages (count 3, not
1) and the caller receives the generic exhaustion error rather than the
permanent one, contradicting "propagates immediately through all remaining
pipeline stages, skipping the remaining fallback stages". -/
theorem permanent_failure_counterexample :
    extract_transcript_from_youtube pipeEnvC2 =
      (Except.error pipelineFailDetail, 3) ∧
    extract_with_stable_client pipeEnvC2.yt.profileOutcomes =
      Except.error privateVideoMsg ∧
    permanentErr privateVideoMsg = true := by
  refine ⟨by rfl, by rfl, by decide⟩

/-- C2 amended: a permanent condition short-circuits only the remaining
client-identity profiles inside one `_extract_with_stable_client` call
(the error is re-raised after the failing profile, skipping the rest);
each pipeline stage catches that failure, and the metadata fallback stages
are still attempted (at least two further extractor calls happen). -/
theorem permanent_failure_profile_scope :
    (∀ (e : String) (post : List (Except String (Option MediaInfo))),
        permanentErr e = true →
        ∀ pre : List (Except String (Option MediaInfo)),
          (∀ o ∈ pre, transientOutcome o = true) →
          stableClientLoop (pre ++ Except.error e :: post) none =
            (Except.error e, pre.length + 1)) ∧
    (∀ (env : PipeEnv) (v e : String),
        env.videoId = some v →
        pyFalsyOpt (try_transcript_api env.cap).1 = true →
        extract_with_stable_client env.yt.profileOutcomes = Except.error e →
        permanentErr e = true →
        2 ≤ (extract_transcript_from_youtube env).2) := by
  constructor
  · intro e post hp pre hsoft
    exact stableClientLoop_perm e post hp pre hsoft none
  · intro env v e hv hcap herr _
    exact (pipeline_counts env v hv hcap).2 (ytdlp_none_of_error env.yt e herr)

/-- C2 witness: the private-video error raised at the second of three
profiles stops the profile loop at two attempts, and the pipeline of the
counterexample run still performs both metadata-stage extractor calls. -/
theorem permanent_failure_profile_scope_witness :
    stableClientLoop
        [Except.error "The read operation timed out",
         Except.error privateVideoMsg, Except.ok none] none =
      (Except.error privateVideoMsg, 2) ∧
    2 ≤ (extract_transcript_from_youtube pipeEnvC2).2 :=
  ⟨permanent_failure_profile_scope.1 privateVideoMsg [Except.ok none]
      (by decide) [Except.error "The read operation timed out"] (by decide),
   permanent_failure_profile_scope.2 pipeEnvC2 "dQw4w9WgXcQ" privateVideoMsg
     rfl (by decide) rfl (by decide)⟩

/-- C3 counterexample: a merged pool with a non-empty preferred group and a
non-empty other group yields only English candidates — the other-language
candidate is absent, so the groups are not "both represented". -/
theorem candidate_groups_counterexample :
    (splitTracks c3pool).1 ≠ [] ∧ (splitTracks c3pool).2 ≠ [] ∧
    buildCandidates c3pool = [⟨some "uA"⟩] ∧
    (⟨some "uB"⟩ : SubItem) ∈ (splitTracks c3pool).2 ∧
    (⟨some "uB"⟩ : SubItem) ∉ buildCandidates c3pool := by
  decide

/-- C3 amended: when the preferred-language group is non-empty, the
candidate list is exactly the first up-to-3 preferred-language candidates
and contains no candidate from outside that group; only when the preferred
group is empty are other-language candidates (up to 2) considered, and
when both groups are empty up to 2 candidates are taken across the first
two track lists. -/
theorem candidates_prefer_english_only (subs auto : List (String × TrackVal))
    (h1 : (splitTracks (dictMerge subs auto)).1 ≠ [])
    (h2 : (splitTracks (dictMerge subs auto)).2 ≠ []) :
    buildCandidates (dictMerge subs auto) =
      (splitTracks (dictMerge subs auto)).1.take 3 ∧
    buildCandidates (dictMerge subs auto) ≠ [] ∧
    (buildCandidates (dictMerge subs auto)).length ≤ 3 ∧
    ∀ c ∈ buildCandidates (dictMerge subs auto),
      c ∈ (splitTracks (dictMerge subs auto)).1 := by
  have hb : buildCandidates (dictMerge subs auto) =
      (splitTracks (dictMerge subs auto)).1.take 3 := by
    unfold buildCandidates
    rw [if_pos h1]
  refine ⟨hb, ?_, ?_, ?_⟩
  · rw [hb]
    rcases hne : (splitTracks (dictMerge subs auto)).1 with _ | ⟨a, rest⟩
    · exact absurd hne h1
    · simp
  · rw [hb, List.length_take]
    omega
  · rw [hb]
    intro c hc
    exact List.take_subset 3 _ hc

/-- C3 witness: the amended statement at the concrete two-language pool. -/
theorem candidates_prefer_english_only_witness :
    buildCandidates c3pool = (splitTracks c3pool).1.take 3 ∧
    (buildCandidates c3pool).length ≤ 3 :=
  ⟨(candidates_prefer_english_only [("en", TrackVal.items [⟨some "uA"⟩])]
      [("es", TrackVal.items [⟨some "uB"⟩])] (by decide) (by decide)).1,
   (candidates_prefer_english_only [("en", TrackVal.items [⟨some "uA"⟩])]
      [("es", TrackVal.items [⟨some "uB"⟩])] (by decide) (by decide)).2.2.1⟩

/-- C4: the summarization mode normalization only accepts
`{"short", "bullet", "detailed"}`, so input mode `"comprehensive"` is
defaulted to `"short"` and the short prompt (1200 tokens) is used — the
dedicated comprehensive branch (which the raw branch chain would select)
is unreachable. -/
theorem comprehensive_mode_collapses_to_short :
    normalize_summary_type "comprehensive" = "short" ∧
    prompt_branch (normalize_summary_type "comprehensive") =
      (PromptKind.shortPrompt, 1200) ∧
    prompt_branch "comprehensive" = (PromptKind.comprehensivePrompt, 3000) := by
  decide

/-- C5: a candidate fetch raising the "no element found" signal makes the
caption fetcher return `None` immediately after `pre.length + 1` fetch
attempts (remaining candidates untouched); any other per-candidate failure
just moves on to the next candidate; and a `None` caption-stage result makes
the pipeline continue to the next stage (the extractor is then invoked). -/
theorem structural_absence_aborts_fetcher :
    (∀ (pre post : List CaptionTrack) (t : CaptionTrack) (e : String),
        (∀ u ∈ pre, capSoftFail u = true) →
        t.fetch = Except.error e →
        pyIn noElementMarker (pyLower e) = true →
        capLoop (pre ++ t :: post) = (none, pre.length + 1)) ∧
    (∀ (u : CaptionTrack) (rest : List CaptionTrack) (e : String),
        u.fetch = Except.error e →
        pyIn noElementMarker (pyLower e) = false →
        capLoop (u :: rest) = ((capLoop rest).1, (capLoop rest).2 + 1)) ∧
    (∀ (env : PipeEnv) (v : String),
        env.videoId = some v →
        (try_transcript_api env.cap).1 = none →
        1 ≤ (extract_transcript_from_youtube env).2) := by
  refine ⟨fun pre post t e hs ht hm => capLoop_abort pre t post e hs ht hm,
    fun u rest e hf hm => capLoop_soft_cons u rest ?_,
    fun env v hv hnone => (pipeline_counts env v hv (by rw [hnone]; rfl)).1⟩
  unfold capSoftFail
  rw [hf]
  simp [hm]

/-- C5 witness: after one transiently failing candidate, the structural
signal aborts with two attempts (the succeeding third candidate is never
fetched), and the pipeline of the concrete run reaches the next stage. -/
theorem structural_absence_aborts_fetcher_witness :
    capLoop [softTrack, structTrack, tailTrack] = (none, 2) ∧
    1 ≤ (extract_transcript_from_youtube pipeEnvC5).2 :=
  ⟨structural_absence_aborts_fetcher.1 [softTrack] [tailTrack] structTrack
      "no element found: line 1, column 0" (by decide) rfl (by decide),
   structural_absence_aborts_fetcher.2.2 pipeEnvC5 "abc12345678" rfl
     (by decide)⟩

/-- C6: neither transcript-acquisition stage ever returns a whitespace-only
string as a success value — a `some` result always has non-empty stripped
text. -/
theorem stages_never_return_blank :
    (∀ (env : CapEnv) (s : String),
        (try_transcript_api env).1 = some s → pyStrip s ≠ "") ∧
    (∀ (env : YtdlpEnv) (s : String),
        try_ytdlp_subtitles env = some s → pyStrip s ≠ "") := by
  constructor
  · intro env s h
    unfold try_transcript_api at h
    cases hl : env.listing with
    | error e => rw [hl] at h; simp at h
    | ok ts =>
      rw [hl] at h
      exact capLoop_strip_ne _ s h
  · intro env s h
    unfold try_ytdlp_subtitles at h
    cases he : extract_with_stable_client env.profileOutcomes with
    | error e => rw [he] at h; simp at h
    | ok info =>
      rw [he] at h
      dsimp only at h
      exact candLoop_strip_ne env _ _ s h

/-- C6 witness: concrete successful runs of both stages. -/
theorem stages_never_return_blank_witness :
    pyStrip "hello" ≠ "" ∧ pyStrip "world" ≠ "" :=
  ⟨stages_never_return_blank.1 capEnvW "hello" (by decide),
   stages_never_return_blank.2 ytEnvW "world" (by decide)⟩

/-- C7: on input whose stripped text has length 2.2 &times; MAX_SAFE_CHUNK
(= 176000), the chunker produces exactly 2 chunks (the cap), each of length
at most MAX_SAFE_CHUNK, with the second chunk starting at offset
`chunkStep = MAX_SAFE_CHUNK - 300` (the configured overlap step). -/
theorem chunker_two_chunks (t : String)
    (h : (pyStripChars t.data).length = 176000) :
    split_into_chunks t =
      [String.mk ((pyStripChars t.data).take MAX_SAFE_CHUNK),
       String.mk (((pyStripChars t.data).drop chunkStep).take MAX_SAFE_CHUNK)] ∧
    (split_into_chunks t).length = MAX_CHUNKS ∧
    (∀ c ∈ split_into_chunks t, c.length ≤ MAX_SAFE_CHUNK) ∧
    chunkStep = MAX_SAFE_CHUNK - CHUNK_OVERLAP := by
  have hmain : split_into_chunks t =
      [String.mk ((pyStripChars t.data).take MAX_SAFE_CHUNK),
       String.mk (((pyStripChars t.data).drop chunkStep).take MAX_SAFE_CHUNK)] := by
    unfold split_into_chunks
    dsimp only
    rw [h, if_neg (by decide)]
    rw [show 176000 / chunkStep + 2 = 4 from rfl]
    rw [show (4 : Nat) = 3 + 1 from rfl, chunkGo_succ, if_pos (by decide)]
    dsimp only
    rw [if_neg (by simp [MAX_CHUNKS])]
    rw [show (3 : Nat) = 2 + 1 from rfl, chunkGo_succ, if_pos (by decide)]
    dsimp only
    rw [if_pos (by simp [MAX_CHUNKS])]
    simp
  refine ⟨hmain, by rw [hmain]; rfl, ?_, by rfl⟩
  rw [hmain]
  intro c hc
  rcases List.mem_cons.mp hc with rfl | hc2
  · show ((pyStripChars t.data).take MAX_SAFE_CHUNK).length ≤ MAX_SAFE_CHUNK
    exact List.length_take_le _ _
  · rcases List.mem_cons.mp hc2 with rfl | hc3
    · show (((pyStripChars t.data).drop chunkStep).take MAX_SAFE_CHUNK).length ≤
        MAX_SAFE_CHUNK
      exact List.length_take_le _ _
    · simp at hc3

/-- C7 witness: the chunker at a concrete 176000-character input. -/
theorem chunker_two_chunks_witness :
    (split_into_chunks chunkWitnessInput).length = MAX_CHUNKS :=
  (chunker_two_chunks chunkWitnessInput
    (by
      rw [show chunkWitnessInput.data = List.replicate 176000 'a' from rfl,
        pyStripChars_replicate _ _ (by decide), List.length_replicate])).2.1

/-- C8: a caption listing partitioning into 5 preferred-language and 3
other-language tracks yields the attempt list consisting of exactly the
first 3 preferred tracks followed by exactly 1 other track — 4 candidates,
in that order. -/
theorem attempt_list_three_plus_one (ts : List CaptionTrack)
    (h1 : (partition_tracks ts).1.length = 5)
    (h2 : (partition_tracks ts).2.length = 3) :
    attempt_list ts =
      (partition_tracks ts).1.take 3 ++ (partition_tracks ts).2.take 1 ∧
    ((partition_tracks ts).1.take 3).length = 3 ∧
    ((partition_tracks ts).2.take 1).length = 1 ∧
    (attempt_list ts).length = 4 := by
  refine ⟨rfl, ?_, ?_, ?_⟩
  · rw [List.length_take, h1]
    omega
  · rw [List.length_take, h2]
    omega
  · rw [attempt_list, List.length_append, List.length_take, List.length_take,
      h1, h2]
    omega

/-- C8 witness: the concrete 5-English/3-other listing. -/
theorem attempt_list_three_plus_one_witness :
    (attempt_list ts8).length = 4 :=
  (attempt_list_three_plus_one ts8 (by decide) (by decide)).2.2.2

/-- C9: on content beginning with the `#EXTM3U` playlist marker the
resolver issues at most `min HLS_SEGMENT_LIMIT 20 = 20` segment fetches,
however many segments the playlist lists, and this cap does not exceed the
configured `HLS_SEGMENT_LIMIT`. -/
theorem hls_segment_cap (env : YtdlpEnv) (url text : String)
    (h : pyStartswith (pyLstrip text) "#EXTM3U" = true) :
    (fetchHlsSegments env url text).2 ≤ min HLS_SEGMENT_LIMIT 20 ∧
    min HLS_SEGMENT_LIMIT 20 = 20 ∧
    min HLS_SEGMENT_LIMIT 20 ≤ HLS_SEGMENT_LIMIT := by
  refine ⟨?_, by decide, by decide⟩
  unfold fetchHlsSegments
  dsimp only
  exact List.length_take_le _ _

/-- C9 witness: a 25-segment playlist is cut off at 20 fetches. -/
theorem hls_segment_cap_witness :
    (fetchHlsSegments hlsDummyEnv "http://x/pl.m3u8" hlsPlaylist25).2 = 20 ∧
    (fetchHlsSegments hlsDummyEnv "http://x/pl.m3u8" hlsPlaylist25).2 ≤
      min HLS_SEGMENT_LIMIT 20 :=
  ⟨by decide,
   (hls_segment_cap hlsDummyEnv "http://x/pl.m3u8" hlsPlaylist25 (by decide)).1⟩

/-- C10 counterexample: a request answered via the two-field metadata
fallback whose description contains the disclaimer substring gets
`metadata_only = true` and a non-`None` warning, refuting "metadata_only =
False and warning = None for every two-field-fallback response". -/
theorem metadata_flag_counterexample :
    (extract_transcript_from_youtube pipeEnvC10).1 =
      Except.ok (metadataTwoField "T" c10desc) ∧
    is_metadata_only (metadataTwoField "T" c10desc) = true ∧
    metadataWarning (metadataTwoField "T" c10desc) ≠ none := by
  refine ⟨by rfl, by decide, by decide⟩

/-- C10 amended: the flag is computed solely by the substring test, so a
two-field fallback response has `metadata_only = false` and `warning = none`
whenever neither the title nor the description itself contains the
disclaimer substring. -/
theorem metadata_flag_two_field (title desc : String)
    (h1 : pyIn metadataNote title = false)
    (h2 : pyIn metadataNote desc = false) :
    is_metadata_only (metadataTwoField title desc) = false ∧
    metadataWarning (metadataTwoField title desc) = none := by
  have hmain : pyIn metadataNote (metadataTwoField title desc) = false := by
    cases hb : pyIn metadataNote (metadataTwoField title desc) with
    | false => rfl
    | true =>
      exfalso
      have hdata : (metadataTwoField title desc).data =
          "Title: ".data ++ (title.data ++
            ('\n' :: ('\n' :: ("Description:".data ++ ('\n' :: desc.data))))) := by
        simp [metadataTwoField, strData_append, List.append_assoc]
      have htrue : hasSubstrChars metadataNote.data
          ("Title: ".data ++ (title.data ++
            ('\n' :: ('\n' :: ("Description:".data ++ ('\n' :: desc.data)))))) =
          true := by
        rw [← hdata]
        exact hb
      have h3 := hasSubstr_head_skip metadataNote.data "Title: ".data _ 'N'
        (by decide) (by decide) htrue
      rcases hasSubstr_split metadataNote.data title.data
          ('\n' :: ("Description:".data ++ ('\n' :: desc.data))) '\n'
          (by decide) h3 with h4 | h4
      · exact absurd h4 (by simpa [pyIn] using h1)
      · rcases hasSubstr_split metadataNote.data []
            ("Description:".data ++ ('\n' :: desc.data)) '\n' (by decide)
            h4 with h5 | h5
        · exact absurd h5 (by decide)
        · rcases hasSubstr_split metadataNote.data "Description:".data
              desc.data '\n' (by decide) h5 with h6 | h6
          · exact absurd h6 (by decide)
          · exact absurd h6 (by simpa [pyIn] using h2)
  exact ⟨hmain, by simp [metadataWarning, is_metadata_only, hmain]⟩

/-- C10 witness: the amended statement at a concrete marker-free title and
description. -/
theorem metadata_flag_two_field_witness :
    is_metadata_only (metadataTwoField "My talk" "A talk about birds.") =
      false ∧
    metadataWarning (metadataTwoField "My talk" "A talk about birds.") =
      none :=
  metadata_flag_two_field "My talk" "A talk about birds." (by decide)
    (by decide)
